import Mathlib

/-!
Verification of the request/response protocol core of
`agentforce-reliable-tool` (`src/client.js`), a single-shot stdin/stdout
MCP adapter.  The JavaScript code is shallowly embedded: JavaScript
values that matter to the protocol (JSON-parsed requests, axios response
bodies, the operation results) are modelled by the inductive `JVal`;
property access, truthiness, template-literal conversion and
`JSON.stringify` are modelled by executable Lean functions mirroring the
ECMAScript semantics the code relies on; the single outbound axios call
is modelled by a `CallOutcome` parameter (the backend is a black box), and
`uuidv4()` / `loadConfig()` by explicit parameters, since they are
platform effects.  A thrown exception is an `Except.error` carrying the
error message string; the wording of engine-generated `TypeError`
messages is modelled abstractly by `cannotRead`.
-/

/-- JavaScript values as far as the protocol core observes them:
`undefined`, `null`, booleans, (integer) numbers, strings, arrays and
plain objects with ordered fields. -/
inductive JVal where
  | undefined
  | null
  | bool (b : Bool)
  | num (n : Int)
  | str (s : String)
  | arr (elems : List JVal)
  | obj (fields : List (String × JVal))

/-- ECMAScript ToBoolean on the modelled values: `undefined`, `null`,
`false`, `0` and `""` are falsy, everything else truthy. -/
def truthy : JVal → Bool
  | .undefined => false
  | .null => false
  | .bool b => b
  | .num n => n != 0
  | .str s => s != ""
  | .arr _ => true
  | .obj _ => true

/-- A value is nullish when it is `null` or `undefined` — exactly the
receivers on which property access throws a `TypeError`. -/
def notNullish : JVal → Bool
  | .undefined => false
  | .null => false
  | _ => true

/-- Modelled text of the `TypeError` raised by reading a property of a
nullish value (the engine wording is platform detail; only the fact
that some message string is produced matters to the protocol). -/
def cannotRead (kind : String) (k : String) : String :=
  "Cannot read properties of " ++ kind ++ " (reading " ++ k ++ ")"

/-- Total property read used where the receiver is known non-nullish
(or guarded by short-circuit evaluation): object fields by name,
`length` on strings and arrays, `undefined` otherwise. -/
def propOrUndef (v : JVal) (k : String) : JVal :=
  match v with
  | .obj fs => (fs.lookup k).getD .undefined
  | .str s => if k = "length" then .num s.length else .undefined
  | .arr xs => if k = "length" then .num xs.length else .undefined
  | _ => .undefined

/-- Property access `v.k` as an expression that may throw: a
`TypeError` on nullish receivers, otherwise `propOrUndef`. -/
def getProp (v : JVal) (k : String) : Except String JVal :=
  match v with
  | .undefined => .error (cannotRead "undefined" k)
  | .null => .error (cannotRead "null" k)
  | v => .ok (propOrUndef v k)

/-- Index access `v[i]`: a `TypeError` on nullish receivers, an element
(or `undefined` out of range) on arrays, a one-character string on
strings, `undefined` otherwise. -/
def getIndex (v : JVal) (i : Nat) : Except String JVal :=
  match v with
  | .undefined => .error (cannotRead "undefined" (toString i))
  | .null => .error (cannotRead "null" (toString i))
  | .arr xs => .ok ((xs.get? i).getD .undefined)
  | .str s => .ok (match s.data.get? i with
      | some c => .str (String.mk [c])
      | none => .undefined)
  | _ => .ok .undefined

mutual
/-- ECMAScript ToString, as used by template literals: arrays join
their converted elements with commas, objects print as
`[object Object]`. -/
def jsToString : JVal → String
  | .undefined => "undefined"
  | .null => "null"
  | .bool b => cond b "true" "false"
  | .num n => toString n
  | .str s => s
  | .arr xs => String.intercalate "," (jsToStringList xs)
  | .obj _ => "[object Object]"

/-- Element conversion for array joining: `null` and `undefined`
become the empty string. -/
def jsToStringList : List JVal → List String
  | [] => []
  | x :: xs =>
    (match x with
     | .undefined => ""
     | .null => ""
     | v => jsToString v) :: jsToStringList xs
end

/-- JSON string escaping for the characters that can occur here. -/
def jsonEscapeChar (c : Char) : String :=
  if c = Char.ofNat 34 then "\\\""
  else if c = Char.ofNat 92 then "\\\\"
  else if c = Char.ofNat 10 then "\\n"
  else if c = Char.ofNat 13 then "\\r"
  else if c = Char.ofNat 9 then "\\t"
  else String.mk [c]

/-- A JSON-quoted string literal. -/
def jsonQuote (s : String) : String :=
  "\"" ++ String.join (s.data.map jsonEscapeChar) ++ "\""

mutual
/-- `JSON.stringify`: `none` for `undefined` (which serializes to
nothing); object fields with `undefined` values are dropped,
`undefined` array elements print as `null`. -/
def stringifyVal : JVal → Option String
  | .undefined => none
  | .null => some "null"
  | .bool b => some (cond b "true" "false")
  | .num n => some (toString n)
  | .str s => some (jsonQuote s)
  | .arr xs => some ("[" ++ String.intercalate "," (stringifyArr xs) ++ "]")
  | .obj fs => some ("\x7b" ++ String.intercalate "," (stringifyObj fs) ++ "\x7d")

/-- Serialization of array elements. -/
def stringifyArr : List JVal → List String
  | [] => []
  | x :: xs => ((stringifyVal x).getD "null") :: stringifyArr xs

/-- Serialization of object fields, dropping `undefined` values. -/
def stringifyObj : List (String × JVal) → List String
  | [] => []
  | (k, v) :: fs =>
    match stringifyVal v with
    | none => stringifyObj fs
    | some sv => (jsonQuote k ++ ":" ++ sv) :: stringifyObj fs
end

/-- The string `process.stdout.write(JSON.stringify(v))` emits. -/
def writeJson (v : JVal) : String :=
  (stringifyVal v).getD "undefined"

/-- Whitespace for JavaScript `String.prototype.trim` (the ASCII
portion; the code only ever distinguishes blank from non-blank
input). -/
def jsIsWhitespace (c : Char) : Bool :=
  c = Char.ofNat 32 || c = Char.ofNat 9 || c = Char.ofNat 10 ||
  c = Char.ofNat 13 || c = Char.ofNat 11 || c = Char.ofNat 12

/-- JavaScript `inputData.trim()`, embedded over the character list so
that it is kernel-computable. -/
def jsTrim (s : String) : String :=
  String.mk (((s.data.dropWhile jsIsWhitespace).reverse.dropWhile
    jsIsWhitespace).reverse)

/-- The Connection Profile loaded by `loadConfig()`: server URL, API
key and client identifier.  Loading from the config file is a platform
effect, so the profile is a parameter of the operations. -/
structure Config where
  serverUrl : String
  apiKey : String
  clientId : String

/-- The one outbound HTTP request an operation issues via
`axios.post`. -/
structure HttpRequest where
  method : String
  url : String
  body : JVal
  apiKeyHeader : String
  requestIdHeader : String
  contentTypeHeader : String
  timeoutMs : Nat

/-- Outcome of the outbound axios call, as the calling code observes
it: either a 2xx response whose parsed body is `data`, or a thrown
axios error (connection refused, timeout elapsed, non-2xx response)
whose `error.message` is `msg`. -/
inductive CallOutcome where
  | ok (data : JVal)
  | fail (msg : String)

/-- What an operation function produced: `outcome` is its returned
value (`Except.error` when an exception escaped the function), and
`calls` lists the outbound requests it issued. -/
structure OpResult where
  outcome : Except String JVal
  calls : List HttpRequest

/-- The body `{ tool: { name: ..., args: args } }` shared by all five
operations. -/
def mcpCallBody (name : String) (args : JVal) : JVal :=
  .obj [("tool", .obj [("name", .str name), ("args", args)])]

/-- The `axios.post(config.serverUrl + "/mcp/call-tool", ...)` request
shared by all five operations: `x-api-key`, a fresh `x-request-id`,
`Content-Type: application/json`, and the per-operation timeout. -/
def mcpCallRequest (config : Config) (requestId : String) (name : String)
    (args : JVal) (timeoutMs : Nat) : HttpRequest :=
  ⟨"POST", config.serverUrl ++ "/mcp/call-tool", mcpCallBody name args,
    config.apiKey, requestId, "application/json", timeoutMs⟩

/-- The locally constructed failure value every operation returns from
its catch block: one text content entry "<Operation> failed: <message>"
and an error object with the fixed per-operation code. -/
def opErrorResult (opText : String) (code : String) (msg : String) : JVal :=
  .obj [("content", .arr [.obj [("type", .str "text"),
          ("text", .str (opText ++ " failed: " ++ msg))]]),
        ("error", .obj [("code", .str code), ("message", .str msg)])]

/-- `authenticateWithAgentForce(args)`: logs `args.clientId` and
`args.config.agentId` before the try block (these reads may throw and
then escape the function), then posts the envelope with a 30s timeout;
a 2xx response returns `response.data.result`, any caught error is
normalized to `authentication_error`. -/
def authenticateWithAgentForce (config : Config) (requestId : String)
    (args : JVal) (backend : CallOutcome) : OpResult :=
  match getProp args "clientId" with
  | .error m => ⟨.error m, []⟩
  | .ok _ =>
  match getProp args "config" with
  | .error m => ⟨.error m, []⟩
  | .ok cfg =>
  match getProp cfg "agentId" with
  | .error m => ⟨.error m, []⟩
  | .ok _ =>
    let req := mcpCallRequest config requestId "agentforce_authenticate" args 30000
    match backend with
    | .fail msg => ⟨.ok (opErrorResult "Authentication" "authentication_error" msg), [req]⟩
    | .ok data =>
      match getProp data "result" with
      | .error m => ⟨.ok (opErrorResult "Authentication" "authentication_error" m), [req]⟩
      | .ok r => ⟨.ok r, [req]⟩

/-- `createAgentForceSession(args)`: logs `args.clientId` before the
try block, posts with a 60s timeout; a 2xx response returns
`response.data.result`, any caught error is normalized to
`session_creation_error`. -/
def createAgentForceSession (config : Config) (requestId : String)
    (args : JVal) (backend : CallOutcome) : OpResult :=
  match getProp args "clientId" with
  | .error m => ⟨.error m, []⟩
  | .ok _ =>
    let req := mcpCallRequest config requestId "agentforce_create_session" args 60000
    match backend with
    | .fail msg => ⟨.ok (opErrorResult "Session creation" "session_creation_error" msg), [req]⟩
    | .ok data =>
      match getProp data "result" with
      | .error m => ⟨.ok (opErrorResult "Session creation" "session_creation_error" m), [req]⟩
      | .ok r => ⟨.ok r, [req]⟩

/-- The success path of `sendMessageToAgentForce` inside the try
block: it reads `response.data.result.content[0].text` and the
`length` of that text for diagnostics, then returns
`response.data.result`; any of those reads may throw. -/
def sendSuccessPath (data : JVal) : Except String JVal :=
  match getProp data "result" with
  | .error m => .error m
  | .ok r =>
    match getProp r "content" with
    | .error m => .error m
    | .ok c =>
      match getIndex c 0 with
      | .error m => .error m
      | .ok c0 =>
        match getProp c0 "text" with
        | .error m => .error m
        | .ok t =>
          match getProp t "length" with
          | .error m => .error m
          | .ok _ => .ok r

/-- `sendMessageToAgentForce(args)`: logs `args.clientId` and
`args.message.length` before the try block (these reads may throw and
then escape the function), posts with a 300s timeout; a 2xx response
goes through `sendSuccessPath`, any caught error is normalized to
`message_sending_error`. -/
def sendMessageToAgentForce (config : Config) (requestId : String)
    (args : JVal) (backend : CallOutcome) : OpResult :=
  match getProp args "clientId" with
  | .error m => ⟨.error m, []⟩
  | .ok _ =>
  match getProp args "message" with
  | .error m => ⟨.error m, []⟩
  | .ok msgv =>
  match getProp msgv "length" with
  | .error m => ⟨.error m, []⟩
  | .ok _ =>
    let req := mcpCallRequest config requestId "agentforce_send_message" args 300000
    match backend with
    | .fail msg => ⟨.ok (opErrorResult "Message sending" "message_sending_error" msg), [req]⟩
    | .ok data =>
      match sendSuccessPath data with
      | .error m => ⟨.ok (opErrorResult "Message sending" "message_sending_error" m), [req]⟩
      | .ok r => ⟨.ok r, [req]⟩

/-- `getAgentForceStatus(args)`: logs `args.clientId` before the try
block, posts with a 10s timeout; a 2xx response returns
`response.data.result`, any caught error is normalized to
`status_check_error`. -/
def getAgentForceStatus (config : Config) (requestId : String)
    (args : JVal) (backend : CallOutcome) : OpResult :=
  match getProp args "clientId" with
  | .error m => ⟨.error m, []⟩
  | .ok _ =>
    let req := mcpCallRequest config requestId "agentforce_get_status" args 10000
    match backend with
    | .fail msg => ⟨.ok (opErrorResult "Status check" "status_check_error" msg), [req]⟩
    | .ok data =>
      match getProp data "result" with
      | .error m => ⟨.ok (opErrorResult "Status check" "status_check_error" m), [req]⟩
      | .ok r => ⟨.ok r, [req]⟩

/-- `resetAgentForceClient(args)`: logs `args.clientId` before the try
block, posts with a 10s timeout; a 2xx response returns
`response.data.result`, any caught error is normalized to
`reset_error`. -/
def resetAgentForceClient (config : Config) (requestId : String)
    (args : JVal) (backend : CallOutcome) : OpResult :=
  match getProp args "clientId" with
  | .error m => ⟨.error m, []⟩
  | .ok _ =>
    let req := mcpCallRequest config requestId "agentforce_reset" args 10000
    match backend with
    | .fail msg => ⟨.ok (opErrorResult "Reset" "reset_error" msg), [req]⟩
    | .ok data =>
      match getProp data "result" with
      | .error m => ⟨.ok (opErrorResult "Reset" "reset_error" m), [req]⟩
      | .ok r => ⟨.ok r, [req]⟩

/-- The `switch (name)` dispatch: strict (`===`) comparison against
the five registered operation names; `none` is the `default` branch. -/
def dispatchTool (config : Config) (requestId : String) (name : JVal)
    (args : JVal) (backend : CallOutcome) : Option OpResult :=
  match name with
  | .str s =>
    if s = "agentforce_authenticate" then
      some (authenticateWithAgentForce config requestId args backend)
    else if s = "agentforce_create_session" then
      some (createAgentForceSession config requestId args backend)
    else if s = "agentforce_send_message" then
      some (sendMessageToAgentForce config requestId args backend)
    else if s = "agentforce_get_status" then
      some (getAgentForceStatus config requestId args backend)
    else if s = "agentforce_reset" then
      some (resetAgentForceClient config requestId args backend)
    else none
  | _ => none

/-- Observable outcome of one process invocation: the strings written
to stdout, the exit code, and the outbound requests issued. -/
structure ProcResult where
  stdout : List String
  exitCode : Nat
  calls : List HttpRequest

/-- The error Response Envelope
`{ result: { content: [{type:"text",text}], error: {code,message} } }`
written by the failure branches of the handler itself. -/
def errorEnvelope (text : String) (code : String) (msg : String) : JVal :=
  .obj [("result", .obj [
    ("content", .arr [.obj [("type", .str "text"), ("text", .str text)]]),
    ("error", .obj [("code", .str code), ("message", .str msg)])])]

/-- The stdin end-of-stream handler of `processStdinRequest`: blank
input exits 1 with no stdout write; a parse failure writes a
`parse_error` envelope; a falsy request or falsy `request.tool` writes
`invalid_request` / "Missing tool field"; falsy `args` writes
`invalid_request` / "Missing args field"; an unrecognized name writes
`unknown_tool`; the return value of a dispatched operation is written as
`{ result }` with exit 0, and an exception escaping it is caught and
written as a `processing_error` envelope with exit 1.  The JSON parse
of the buffered input is a platform effect, passed as `parsed`. -/
def processStdinRequest (config : Config) (requestId : String)
    (inputData : String) (parsed : Except String JVal)
    (backend : CallOutcome) : ProcResult :=
  if jsTrim inputData = "" then ⟨[], 1, []⟩
  else
    match parsed with
    | .error msg =>
      ⟨[writeJson (errorEnvelope ("Error: Failed to parse input - " ++ msg)
          "parse_error" msg)], 1, []⟩
    | .ok request =>
      if !truthy request || !truthy (propOrUndef request "tool") then
        ⟨[writeJson (errorEnvelope "Error: Invalid request format - missing tool field"
            "invalid_request" "Missing tool field")], 1, []⟩
      else
        let tool := propOrUndef request "tool"
        let name := propOrUndef tool "name"
        let args := propOrUndef tool "args"
        if !truthy args then
          ⟨[writeJson (errorEnvelope "Error: Invalid request format - missing args field"
              "invalid_request" "Missing args field")], 1, []⟩
        else
          match dispatchTool config requestId name args backend with
          | none =>
            ⟨[writeJson (errorEnvelope ("Error: Unknown tool: " ++ jsToString name)
                "unknown_tool" ("Unknown tool: " ++ jsToString name))], 1, []⟩
          | some op =>
            match op.outcome with
            | .ok result => ⟨[writeJson (.obj [("result", result)])], 0, op.calls⟩
            | .error m =>
              ⟨[writeJson (errorEnvelope ("Error: " ++ m) "processing_error" m)],
                1, op.calls⟩

/-- The engine kind word used in the `TypeError` text for a nullish
receiver. -/
def nullishKind : JVal → String
  | .null => "null"
  | _ => "undefined"

theorem truthy_notNullish (v : JVal) (h : truthy v = true) :
    notNullish v = true := by
  cases v <;> simp_all [truthy, notNullish]

theorem getProp_of_notNullish (v : JVal) (k : String)
    (h : notNullish v = true) :
    getProp v k = .ok (propOrUndef v k) := by
  cases v <;> simp_all [notNullish, getProp]

theorem getProp_of_nullish (v : JVal) (k : String)
    (h : notNullish v = false) :
    getProp v k = .error (cannotRead (nullishKind v) k) := by
  cases v <;> simp_all [notNullish, getProp, nullishKind]

/-- C7: for every input stream that is empty or whitespace-only, the
process exits with code 1 and writes nothing to standard output (and
issues no outbound call). -/
theorem blank_input_exit_one_no_output (config : Config)
    (requestId : String) (inputData : String)
    (parsed : Except String JVal) (backend : CallOutcome)
    (h : jsTrim inputData = "") :
    processStdinRequest config requestId inputData parsed backend =
      ⟨[], 1, []⟩ := by
  simp [processStdinRequest, h]

/-- C7 witness at a whitespace-only input. -/
theorem blank_input_exit_one_no_output_witness :
    processStdinRequest ⟨"http://localhost:3000", "", "c1"⟩ "r1" "  \n "
      (.error "Unexpected end of JSON input") (.ok .null) = ⟨[], 1, []⟩ :=
  blank_input_exit_one_no_output _ _ _ _ _ rfl

/-- C6: for every input that is non-empty after trimming and whose
JSON parse fails with description `msg`, the process writes a single
Response Envelope with `error.code = "parse_error"` and
`error.message = msg`, and exits non-zero. -/
theorem parse_failure_parse_error_envelope (config : Config)
    (requestId : String) (inputData : String) (msg : String)
    (backend : CallOutcome) (h : jsTrim inputData ≠ "") :
    processStdinRequest config requestId inputData (.error msg) backend =
      ⟨[writeJson (errorEnvelope ("Error: Failed to parse input - " ++ msg)
          "parse_error" msg)], 1, []⟩ := by
  simp [processStdinRequest, h]

/-- C6 witness at a concrete unparseable input. -/
theorem parse_failure_parse_error_envelope_witness :
    processStdinRequest ⟨"http://localhost:3000", "", "c1"⟩ "r1" "not json"
      (.error "Unexpected token o in JSON at position 1") (.ok .null) =
      ⟨[writeJson (errorEnvelope
          "Error: Failed to parse input - Unexpected token o in JSON at position 1"
          "parse_error" "Unexpected token o in JSON at position 1")], 1, []⟩ :=
  parse_failure_parse_error_envelope _ _ _ _ _ (by decide)

/-- C4: a parsed request object with no `tool` key is rejected with
`invalid_request` / "Missing tool field" and non-zero exit; a request
whose `tool` object has no `args` key is rejected with
`invalid_request` / "Missing args field" and non-zero exit; in both
cases no outbound call is issued. -/
theorem missing_tool_or_args_invalid_request (config : Config)
    (requestId : String) (inputData : String) (backend : CallOutcome)
    (h : jsTrim inputData ≠ "") :
    (∀ fs : List (String × JVal), fs.lookup "tool" = none →
      processStdinRequest config requestId inputData (.ok (.obj fs)) backend =
        ⟨[writeJson (errorEnvelope "Error: Invalid request format - missing tool field"
            "invalid_request" "Missing tool field")], 1, []⟩) ∧
    (∀ (fs gs : List (String × JVal)), fs.lookup "tool" = some (.obj gs) →
      gs.lookup "args" = none →
      processStdinRequest config requestId inputData (.ok (.obj fs)) backend =
        ⟨[writeJson (errorEnvelope "Error: Invalid request format - missing args field"
            "invalid_request" "Missing args field")], 1, []⟩) := by
  constructor
  · intro fs hfs
    simp [processStdinRequest, h, truthy, propOrUndef, hfs]
  · intro fs gs hfs hgs
    simp [processStdinRequest, h, truthy, propOrUndef, hfs, hgs]

/-- C4 witness: a request without `tool`, and one whose tool lacks
`args`, both at concrete inputs. -/
theorem missing_tool_or_args_invalid_request_witness :
    processStdinRequest ⟨"http://localhost:3000", "", "c1"⟩ "r1"
        "\x7b\"x\":1\x7d" (.ok (.obj [("x", .num 1)])) (.ok .null) =
      ⟨[writeJson (errorEnvelope "Error: Invalid request format - missing tool field"
          "invalid_request" "Missing tool field")], 1, []⟩ ∧
    processStdinRequest ⟨"http://localhost:3000", "", "c1"⟩ "r1"
        "\x7b\"tool\":\x7b\"name\":\"agentforce_reset\"\x7d\x7d"
        (.ok (.obj [("tool", .obj [("name", .str "agentforce_reset")])]))
        (.ok .null) =
      ⟨[writeJson (errorEnvelope "Error: Invalid request format - missing args field"
          "invalid_request" "Missing args field")], 1, []⟩ :=
  ⟨(missing_tool_or_args_invalid_request _ _ _ _ (by decide)).1
      [("x", .num 1)] rfl,
   (missing_tool_or_args_invalid_request _ _ _ _ (by decide)).2
      [("tool", .obj [("name", .str "agentforce_reset")])]
      [("name", .str "agentforce_reset")] rfl rfl⟩

/-- C10: the presence checks are truthiness tests: a request whose
`tool` key exists but holds a falsy value is rejected as
"Missing tool field", and one whose `tool.args` key exists but holds a
falsy value is rejected as "Missing args field", each with non-zero
exit and no outbound call. -/
theorem falsy_tool_or_args_rejected (config : Config)
    (requestId : String) (inputData : String) (backend : CallOutcome)
    (h : jsTrim inputData ≠ "") :
    (∀ (fs : List (String × JVal)) (t : JVal), fs.lookup "tool" = some t →
      truthy t = false →
      processStdinRequest config requestId inputData (.ok (.obj fs)) backend =
        ⟨[writeJson (errorEnvelope "Error: Invalid request format - missing tool field"
            "invalid_request" "Missing tool field")], 1, []⟩) ∧
    (∀ (fs gs : List (String × JVal)) (a : JVal),
      fs.lookup "tool" = some (.obj gs) → gs.lookup "args" = some a →
      truthy a = false →
      processStdinRequest config requestId inputData (.ok (.obj fs)) backend =
        ⟨[writeJson (errorEnvelope "Error: Invalid request format - missing args field"
            "invalid_request" "Missing args field")], 1, []⟩) := by
  constructor
  · intro fs t hfs ht
    have hp : propOrUndef (.obj fs) "tool" = t := by simp [propOrUndef, hfs]
    have hto : truthy (JVal.obj fs) = true := rfl
    simp [processStdinRequest, h, hp, ht, hto]
  · intro fs gs a hfs hgs ha
    have hp : propOrUndef (.obj fs) "tool" = .obj gs := by
      simp [propOrUndef, hfs]
    have hq : propOrUndef (.obj gs) "args" = a := by simp [propOrUndef, hgs]
    have hto : truthy (JVal.obj fs) = true := rfl
    have hto2 : truthy (JVal.obj gs) = true := rfl
    simp [processStdinRequest, h, hp, hq, ha, hto, hto2]

/-- C10 witness: `tool` present but `null`, and `args` present but
`0`, are both rejected as missing. -/
theorem falsy_tool_or_args_rejected_witness :
    processStdinRequest ⟨"http://localhost:3000", "", "c1"⟩ "r1"
        "\x7b\"tool\":null\x7d" (.ok (.obj [("tool", .null)])) (.ok .null) =
      ⟨[writeJson (errorEnvelope "Error: Invalid request format - missing tool field"
          "invalid_request" "Missing tool field")], 1, []⟩ ∧
    processStdinRequest ⟨"http://localhost:3000", "", "c1"⟩ "r1"
        "\x7b\"tool\":\x7b\"name\":\"agentforce_reset\",\"args\":0\x7d\x7d"
        (.ok (.obj [("tool", .obj [("name", .str "agentforce_reset"),
          ("args", .num 0)])])) (.ok .null) =
      ⟨[writeJson (errorEnvelope "Error: Invalid request format - missing args field"
          "invalid_request" "Missing args field")], 1, []⟩ :=
  ⟨(falsy_tool_or_args_rejected _ _ _ _ (by decide)).1
      [("tool", .null)] .null rfl rfl,
   (falsy_tool_or_args_rejected _ _ _ _ (by decide)).2
      [("tool", .obj [("name", .str "agentforce_reset"), ("args", .num 0)])]
      [("name", .str "agentforce_reset"), ("args", .num 0)] (.num 0)
      rfl rfl rfl⟩

/-- C5: a valid envelope whose `tool.name` is a string outside the
five registered operation names yields a single `unknown_tool`
envelope whose message echoes the offending name, a non-zero exit, and
no outbound call. -/
theorem unknown_tool_rejected (config : Config) (requestId : String)
    (inputData : String) (backend : CallOutcome) (request : JVal)
    (s : String) (h : jsTrim inputData ≠ "")
    (hreq : truthy request = true)
    (htool : truthy (propOrUndef request "tool") = true)
    (hname : propOrUndef (propOrUndef request "tool") "name" = .str s)
    (hargs : truthy (propOrUndef (propOrUndef request "tool") "args") = true)
    (h1 : s ≠ "agentforce_authenticate")
    (h2 : s ≠ "agentforce_create_session")
    (h3 : s ≠ "agentforce_send_message")
    (h4 : s ≠ "agentforce_get_status")
    (h5 : s ≠ "agentforce_reset") :
    processStdinRequest config requestId inputData (.ok request) backend =
      ⟨[writeJson (errorEnvelope ("Error: Unknown tool: " ++ s)
          "unknown_tool" ("Unknown tool: " ++ s))], 1, []⟩ := by
  simp [processStdinRequest, h, hreq, htool, hname, hargs, dispatchTool,
    h1, h2, h3, h4, h5, jsToString]

/-- C5 witness: the `bogus_tool` scenario from the spec. -/
theorem unknown_tool_rejected_witness :
    processStdinRequest ⟨"http://localhost:3000", "", "c1"⟩ "r1"
        "\x7b\"tool\":\x7b\"name\":\"bogus_tool\",\"args\":\x7b\x7d\x7d\x7d"
        (.ok (.obj [("tool", .obj [("name", .str "bogus_tool"),
          ("args", .obj [])])])) (.ok .null) =
      ⟨[writeJson (errorEnvelope "Error: Unknown tool: bogus_tool"
          "unknown_tool" "Unknown tool: bogus_tool")], 1, []⟩ :=
  unknown_tool_rejected _ _ _ _ _ _ (by decide) rfl rfl rfl rfl
    (by decide) (by decide) (by decide) (by decide) (by decide)

/-- C3: for every operation whose pre-try diagnostic reads succeed and
every transport- or protocol-level failure of the outbound call
(modelled by `CallOutcome.fail msg`: connection refused, timeout
elapsed, non-2xx response), the operation does not raise past its own
boundary: it returns the locally constructed value `opErrorResult`,
which has exactly one content entry with text "<Operation> failed:
<msg>" and an error object with the fixed per-operation code and the
underlying message `msg`. -/
theorem transport_failure_normalized (config : Config) (requestId : String)
    (args : JVal) (msg : String)
    (h1 : notNullish args = true)
    (hc : notNullish (propOrUndef args "config") = true)
    (hm : notNullish (propOrUndef args "message") = true) :
    authenticateWithAgentForce config requestId args (.fail msg) =
      ⟨.ok (opErrorResult "Authentication" "authentication_error" msg),
       [mcpCallRequest config requestId "agentforce_authenticate" args 30000]⟩ ∧
    createAgentForceSession config requestId args (.fail msg) =
      ⟨.ok (opErrorResult "Session creation" "session_creation_error" msg),
       [mcpCallRequest config requestId "agentforce_create_session" args 60000]⟩ ∧
    sendMessageToAgentForce config requestId args (.fail msg) =
      ⟨.ok (opErrorResult "Message sending" "message_sending_error" msg),
       [mcpCallRequest config requestId "agentforce_send_message" args 300000]⟩ ∧
    getAgentForceStatus config requestId args (.fail msg) =
      ⟨.ok (opErrorResult "Status check" "status_check_error" msg),
       [mcpCallRequest config requestId "agentforce_get_status" args 10000]⟩ ∧
    resetAgentForceClient config requestId args (.fail msg) =
      ⟨.ok (opErrorResult "Reset" "reset_error" msg),
       [mcpCallRequest config requestId "agentforce_reset" args 10000]⟩ := by
  have g1 : ∀ k, getProp args k = .ok (propOrUndef args k) :=
    fun k => getProp_of_notNullish _ k h1
  have g2 : ∀ k, getProp (propOrUndef args "config") k =
      .ok (propOrUndef (propOrUndef args "config") k) :=
    fun k => getProp_of_notNullish _ k hc
  have g3 : ∀ k, getProp (propOrUndef args "message") k =
      .ok (propOrUndef (propOrUndef args "message") k) :=
    fun k => getProp_of_notNullish _ k hm
  refine ⟨?_, ?_, ?_, ?_, ?_⟩ <;>
    simp [authenticateWithAgentForce, createAgentForceSession,
      sendMessageToAgentForce, getAgentForceStatus, resetAgentForceClient,
      g1, g2, g3]

/-- C3 witness at a concrete failing call. -/
theorem transport_failure_normalized_witness :
    sendMessageToAgentForce ⟨"http://localhost:3000", "k", "c1"⟩ "r1"
        (.obj [("clientId", .str "c1"),
          ("config", .obj [("agentId", .str "a1")]),
          ("message", .str "hello")])
        (.fail "timeout of 300000ms exceeded") =
      ⟨.ok (opErrorResult "Message sending" "message_sending_error"
          "timeout of 300000ms exceeded"),
       [mcpCallRequest ⟨"http://localhost:3000", "k", "c1"⟩ "r1"
          "agentforce_send_message"
          (.obj [("clientId", .str "c1"),
            ("config", .obj [("agentId", .str "a1")]),
            ("message", .str "hello")]) 300000]⟩ :=
  (transport_failure_normalized ⟨"http://localhost:3000", "k", "c1"⟩ "r1"
    (.obj [("clientId", .str "c1"),
      ("config", .obj [("agentId", .str "a1")]),
      ("message", .str "hello")])
    "timeout of 300000ms exceeded" rfl rfl rfl).2.2.1

/-- C8: every operation whose pre-try diagnostic reads succeed issues
exactly one outbound call, a POST to the profile serverUrl joined with
"/mcp/call-tool", body `{ tool: { name, args } }` with the envelope
args forwarded verbatim, headers `x-api-key` (the profile apiKey),
`x-request-id` (the identifier freshly generated for this call) and
`Content-Type: application/json`, with timeout 30s for authenticate,
60s for create_session, 300s for send_message and 10s for get_status
and reset — whatever the call outcome is. -/
theorem outbound_call_shape (config : Config) (requestId : String)
    (args : JVal) (backend : CallOutcome)
    (h1 : notNullish args = true)
    (hc : notNullish (propOrUndef args "config") = true)
    (hm : notNullish (propOrUndef args "message") = true) :
    (authenticateWithAgentForce config requestId args backend).calls =
      [⟨"POST", config.serverUrl ++ "/mcp/call-tool",
        .obj [("tool", .obj [("name", .str "agentforce_authenticate"), ("args", args)])],
        config.apiKey, requestId, "application/json", 30000⟩] ∧
    (createAgentForceSession config requestId args backend).calls =
      [⟨"POST", config.serverUrl ++ "/mcp/call-tool",
        .obj [("tool", .obj [("name", .str "agentforce_create_session"), ("args", args)])],
        config.apiKey, requestId, "application/json", 60000⟩] ∧
    (sendMessageToAgentForce config requestId args backend).calls =
      [⟨"POST", config.serverUrl ++ "/mcp/call-tool",
        .obj [("tool", .obj [("name", .str "agentforce_send_message"), ("args", args)])],
        config.apiKey, requestId, "application/json", 300000⟩] ∧
    (getAgentForceStatus config requestId args backend).calls =
      [⟨"POST", config.serverUrl ++ "/mcp/call-tool",
        .obj [("tool", .obj [("name", .str "agentforce_get_status"), ("args", args)])],
        config.apiKey, requestId, "application/json", 10000⟩] ∧
    (resetAgentForceClient config requestId args backend).calls =
      [⟨"POST", config.serverUrl ++ "/mcp/call-tool",
        .obj [("tool", .obj [("name", .str "agentforce_reset"), ("args", args)])],
        config.apiKey, requestId, "application/json", 10000⟩] := by
  have g1 : ∀ k, getProp args k = .ok (propOrUndef args k) :=
    fun k => getProp_of_notNullish _ k h1
  have g2 : ∀ k, getProp (propOrUndef args "config") k =
      .ok (propOrUndef (propOrUndef args "config") k) :=
    fun k => getProp_of_notNullish _ k hc
  have g3 : ∀ k, getProp (propOrUndef args "message") k =
      .ok (propOrUndef (propOrUndef args "message") k) :=
    fun k => getProp_of_notNullish _ k hm
  cases backend with
  | fail msg =>
    refine ⟨?_, ?_, ?_, ?_, ?_⟩ <;>
      simp [authenticateWithAgentForce, createAgentForceSession,
        sendMessageToAgentForce, getAgentForceStatus, resetAgentForceClient,
        mcpCallRequest, mcpCallBody, g1, g2, g3]
  | ok data =>
    refine ⟨?_, ?_, ?_, ?_, ?_⟩ <;>
      [cases hr : getProp data "result";
       cases hr : getProp data "result";
       cases hr : sendSuccessPath data;
       cases hr : getProp data "result";
       cases hr : getProp data "result"] <;>
      simp [authenticateWithAgentForce, createAgentForceSession,
        sendMessageToAgentForce, getAgentForceStatus, resetAgentForceClient,
        mcpCallRequest, mcpCallBody, g1, g2, g3, hr]

/-- C8 witness at a concrete successful call. -/
theorem outbound_call_shape_witness :
    (getAgentForceStatus ⟨"http://localhost:3000", "k", "c1"⟩ "r1"
        (.obj [("clientId", .str "c1"),
          ("config", .obj [("agentId", .str "a1")]),
          ("message", .str "hi")])
        (.ok (.obj [("result", .obj [("content",
          .arr [.obj [("type", .str "text"), ("text", .str "ok")]])])]))).calls =
      [⟨"POST", "http://localhost:3000" ++ "/mcp/call-tool",
        .obj [("tool", .obj [("name", .str "agentforce_get_status"),
          ("args", .obj [("clientId", .str "c1"),
            ("config", .obj [("agentId", .str "a1")]),
            ("message", .str "hi")])])],
        "k", "r1", "application/json", 10000⟩] :=
  (outbound_call_shape ⟨"http://localhost:3000", "k", "c1"⟩ "r1"
    (.obj [("clientId", .str "c1"),
      ("config", .obj [("agentId", .str "a1")]),
      ("message", .str "hi")])
    (.ok (.obj [("result", .obj [("content",
      .arr [.obj [("type", .str "text"), ("text", .str "ok")]])])]))
    rfl rfl rfl).2.2.2.1

/-- C1 counterexample: a valid envelope naming `agentforce_get_status`
whose outbound call fails (connection refused) makes the dispatcher
return a result that carries an `error` field, yet the process exit
code is 0 — refuting the claim that the exit code is non-zero whenever
the dispatcher result carries an `error` field. -/
theorem dispatcher_error_exit_zero_counterexample :
    (processStdinRequest ⟨"http://localhost:3000", "k", "c1"⟩ "r1"
        "\x7b\"tool\":\x7b\"name\":\"agentforce_get_status\",\"args\":\x7b\"clientId\":\"c1\"\x7d\x7d\x7d"
        (.ok (.obj [("tool", .obj [("name", .str "agentforce_get_status"),
          ("args", .obj [("clientId", .str "c1")])])]))
        (.fail "connect ECONNREFUSED 127.0.0.1:3000")).exitCode = 0 ∧
    (processStdinRequest ⟨"http://localhost:3000", "k", "c1"⟩ "r1"
        "\x7b\"tool\":\x7b\"name\":\"agentforce_get_status\",\"args\":\x7b\"clientId\":\"c1\"\x7d\x7d\x7d"
        (.ok (.obj [("tool", .obj [("name", .str "agentforce_get_status"),
          ("args", .obj [("clientId", .str "c1")])])]))
        (.fail "connect ECONNREFUSED 127.0.0.1:3000")).stdout =
      [writeJson (.obj [("result", opErrorResult "Status check"
        "status_check_error" "connect ECONNREFUSED 127.0.0.1:3000")])] ∧
    propOrUndef (opErrorResult "Status check" "status_check_error"
        "connect ECONNREFUSED 127.0.0.1:3000") "error" =
      .obj [("code", .str "status_check_error"),
        ("message", .str "connect ECONNREFUSED 127.0.0.1:3000")] :=
  ⟨rfl, rfl, rfl⟩

/-- C1 (amended): for every valid envelope naming a known operation,
when the dispatched operation returns a result (no exception escapes),
the handler writes exactly one output `{ result: <dispatcher result> }`
and exits 0, whether or not the result carries an `error` field. -/
theorem dispatch_result_written_exit_zero (config : Config)
    (requestId : String) (inputData : String) (backend : CallOutcome)
    (request : JVal) (op : OpResult) (res : JVal)
    (h : jsTrim inputData ≠ "")
    (hreq : truthy request = true)
    (htool : truthy (propOrUndef request "tool") = true)
    (hargs : truthy (propOrUndef (propOrUndef request "tool") "args") = true)
    (hd : dispatchTool config requestId
        (propOrUndef (propOrUndef request "tool") "name")
        (propOrUndef (propOrUndef request "tool") "args") backend = some op)
    (hres : op.outcome = .ok res) :
    processStdinRequest config requestId inputData (.ok request) backend =
      ⟨[writeJson (.obj [("result", res)])], 0, op.calls⟩ := by
  simp [processStdinRequest, h, hreq, htool, hargs, hd, hres]

/-- C1 (amended) witness: the counterexample scenario through the
amended statement — error-carrying result, one output, exit 0. -/
theorem dispatch_result_written_exit_zero_witness :
    processStdinRequest ⟨"http://localhost:3000", "k", "c1"⟩ "r1"
        "\x7b\"tool\":\x7b\"name\":\"agentforce_get_status\",\"args\":\x7b\"clientId\":\"c1\"\x7d\x7d\x7d"
        (.ok (.obj [("tool", .obj [("name", .str "agentforce_get_status"),
          ("args", .obj [("clientId", .str "c1")])])]))
        (.fail "getaddrinfo ENOTFOUND localhost") =
      ⟨[writeJson (.obj [("result", opErrorResult "Status check"
          "status_check_error" "getaddrinfo ENOTFOUND localhost")])], 0,
        (getAgentForceStatus ⟨"http://localhost:3000", "k", "c1"⟩ "r1"
          (.obj [("clientId", .str "c1")])
          (.fail "getaddrinfo ENOTFOUND localhost")).calls⟩ :=
  dispatch_result_written_exit_zero ⟨"http://localhost:3000", "k", "c1"⟩
    "r1" _ (.fail "getaddrinfo ENOTFOUND localhost")
    (.obj [("tool", .obj [("name", .str "agentforce_get_status"),
      ("args", .obj [("clientId", .str "c1")])])])
    (getAgentForceStatus ⟨"http://localhost:3000", "k", "c1"⟩ "r1"
      (.obj [("clientId", .str "c1")])
      (.fail "getaddrinfo ENOTFOUND localhost"))
    (opErrorResult "Status check" "status_check_error"
      "getaddrinfo ENOTFOUND localhost")
    (by decide) rfl rfl rfl rfl rfl

theorem sendSuccessPath_ok (data r : JVal)
    (h : sendSuccessPath data = .ok r) :
    getProp data "result" = .ok r := by
  unfold sendSuccessPath at h
  split at h
  · exact absurd h (by simp)
  next r0 heq =>
    split at h
    · exact absurd h (by simp)
    split at h
    · exact absurd h (by simp)
    split at h
    · exact absurd h (by simp)
    split at h
    · exact absurd h (by simp)
    rw [heq]
    exact h

/-- C2 counterexample: `agentforce_send_message` against a backend
that answers 2xx with body `{"result":42}` does not return the
backend `result` payload (42) unmodified — the diagnostic read
`response.data.result.content[0].text` throws inside the try block and
the 2xx response is reshaped into a `message_sending_error` value. -/
theorem backend_result_reshaped_counterexample :
    (sendMessageToAgentForce ⟨"http://localhost:3000", "k", "c1"⟩ "r1"
        (.obj [("clientId", .str "c1"), ("message", .str "hi")])
        (.ok (.obj [("result", .num 42)]))).outcome =
      .ok (opErrorResult "Message sending" "message_sending_error"
        (cannotRead "undefined" "0")) ∧
    (sendMessageToAgentForce ⟨"http://localhost:3000", "k", "c1"⟩ "r1"
        (.obj [("clientId", .str "c1"), ("message", .str "hi")])
        (.ok (.obj [("result", .num 42)]))).outcome ≠
      .ok (propOrUndef (.obj [("result", .num 42)]) "result") :=
  ⟨rfl, fun h => JVal.noConfusion (Except.ok.inj h)⟩

/-- C2 (amended): on a 2xx backend response with a non-nullish body,
`agentforce_authenticate`, `agentforce_create_session`,
`agentforce_get_status` and `agentforce_reset` return the body field
`result` payload unmodified; `agentforce_send_message` returns it
unmodified exactly when its diagnostic read of
`result.content[0].text.length` succeeds; and the spec scenario holds:
input naming `agentforce_get_status` against a backend returning
`{"result":{"content":[{"type":"text","text":"ok"}]}}` produces
exactly that result as output with exit code 0. -/
theorem backend_result_returned_unmodified (config : Config)
    (requestId : String) (args data : JVal)
    (h1 : notNullish args = true)
    (hc : notNullish (propOrUndef args "config") = true)
    (hm : notNullish (propOrUndef args "message") = true)
    (h2 : notNullish data = true) :
    (authenticateWithAgentForce config requestId args (.ok data)).outcome =
      .ok (propOrUndef data "result") ∧
    (createAgentForceSession config requestId args (.ok data)).outcome =
      .ok (propOrUndef data "result") ∧
    (getAgentForceStatus config requestId args (.ok data)).outcome =
      .ok (propOrUndef data "result") ∧
    (resetAgentForceClient config requestId args (.ok data)).outcome =
      .ok (propOrUndef data "result") ∧
    (∀ r, sendSuccessPath data = .ok r →
      (sendMessageToAgentForce config requestId args (.ok data)).outcome =
        .ok r ∧ r = propOrUndef data "result") ∧
    processStdinRequest ⟨"http://localhost:3000", "k", "c1"⟩ "r1"
        "\x7b\"tool\":\x7b\"name\":\"agentforce_get_status\",\"args\":\x7b\"clientId\":\"c1\"\x7d\x7d\x7d"
        (.ok (.obj [("tool", .obj [("name", .str "agentforce_get_status"),
          ("args", .obj [("clientId", .str "c1")])])]))
        (.ok (.obj [("result", .obj [("content", .arr [.obj [("type", .str "text"),
          ("text", .str "ok")]])])])) =
      ⟨["\x7b\"result\":\x7b\"content\":[\x7b\"type\":\"text\",\"text\":\"ok\"\x7d]\x7d\x7d"],
        0,
        [⟨"POST", "http://localhost:3000/mcp/call-tool",
          mcpCallBody "agentforce_get_status" (.obj [("clientId", .str "c1")]),
          "k", "r1", "application/json", 10000⟩]⟩ := by
  have g1 : ∀ k, getProp args k = .ok (propOrUndef args k) :=
    fun k => getProp_of_notNullish _ k h1
  have g2 : ∀ k, getProp (propOrUndef args "config") k =
      .ok (propOrUndef (propOrUndef args "config") k) :=
    fun k => getProp_of_notNullish _ k hc
  have g3 : ∀ k, getProp (propOrUndef args "message") k =
      .ok (propOrUndef (propOrUndef args "message") k) :=
    fun k => getProp_of_notNullish _ k hm
  have g4 : ∀ k, getProp data k = .ok (propOrUndef data k) :=
    fun k => getProp_of_notNullish _ k h2
  refine ⟨?_, ?_, ?_, ?_, ?_, ?_⟩
  · simp [authenticateWithAgentForce, g1, g2, g4]
  · simp [createAgentForceSession, g1, g4]
  · simp [getAgentForceStatus, g1, g4]
  · simp [resetAgentForceClient, g1, g4]
  · intro r hr
    have h7 := sendSuccessPath_ok data r hr
    rw [g4] at h7
    have hrr : r = propOrUndef data "result" := (Except.ok.inj h7).symm
    refine ⟨?_, hrr⟩
    simp [sendMessageToAgentForce, g1, g3, hr]
  · rfl

/-- C2 (amended) witness: the general part applied at the scenario
values. -/
theorem backend_result_returned_unmodified_witness :
    (getAgentForceStatus ⟨"http://localhost:3000", "k", "c1"⟩ "r1"
        (.obj [("clientId", .str "c1"),
          ("config", .obj [("agentId", .str "a1")]),
          ("message", .str "hi")])
        (.ok (.obj [("result", .obj [("content", .arr [.obj [("type", .str "text"),
          ("text", .str "ok")]])])]))).outcome =
      .ok (propOrUndef (.obj [("result", .obj [("content",
        .arr [.obj [("type", .str "text"), ("text", .str "ok")]])])]) "result") :=
  (backend_result_returned_unmodified ⟨"http://localhost:3000", "k", "c1"⟩
    "r1"
    (.obj [("clientId", .str "c1"),
      ("config", .obj [("agentId", .str "a1")]),
      ("message", .str "hi")])
    (.obj [("result", .obj [("content", .arr [.obj [("type", .str "text"),
      ("text", .str "ok")]])])])
    rfl rfl rfl rfl).2.2.1

/-- C9: for a valid envelope naming `agentforce_send_message` whose
args have a nullish (absent) `message` — so that the pre-try
diagnostic read `args.message.length` throws — or naming
`agentforce_authenticate` whose args have a nullish `config` — so
that `args.config.agentId` throws — the fault escapes the operation
before any outbound call, is caught by the top-level handler, and the
output carries `error.code = "processing_error"` (not the
per-operation code) with a non-zero exit. -/
theorem prediag_fault_processing_error (config : Config)
    (requestId : String) (inputData : String) (backend : CallOutcome)
    (request : JVal)
    (h : jsTrim inputData ≠ "")
    (hreq : truthy request = true)
    (htool : truthy (propOrUndef request "tool") = true)
    (hargs : truthy (propOrUndef (propOrUndef request "tool") "args") = true) :
    (propOrUndef (propOrUndef request "tool") "name" =
        .str "agentforce_send_message" →
      notNullish (propOrUndef (propOrUndef (propOrUndef request "tool") "args")
          "message") = false →
      processStdinRequest config requestId inputData (.ok request) backend =
        ⟨[writeJson (errorEnvelope
            ("Error: " ++ cannotRead (nullishKind (propOrUndef
              (propOrUndef (propOrUndef request "tool") "args") "message"))
              "length")
            "processing_error"
            (cannotRead (nullishKind (propOrUndef
              (propOrUndef (propOrUndef request "tool") "args") "message"))
              "length"))], 1, []⟩) ∧
    (propOrUndef (propOrUndef request "tool") "name" =
        .str "agentforce_authenticate" →
      notNullish (propOrUndef (propOrUndef (propOrUndef request "tool") "args")
          "config") = false →
      processStdinRequest config requestId inputData (.ok request) backend =
        ⟨[writeJson (errorEnvelope
            ("Error: " ++ cannotRead (nullishKind (propOrUndef
              (propOrUndef (propOrUndef request "tool") "args") "config"))
              "agentId")
            "processing_error"
            (cannotRead (nullishKind (propOrUndef
              (propOrUndef (propOrUndef request "tool") "args") "config"))
              "agentId"))], 1, []⟩) := by
  have hargsnn : notNullish (propOrUndef (propOrUndef request "tool") "args") =
      true := truthy_notNullish _ hargs
  have g1 : ∀ k, getProp (propOrUndef (propOrUndef request "tool") "args") k =
      .ok (propOrUndef (propOrUndef (propOrUndef request "tool") "args") k) :=
    fun k => getProp_of_notNullish _ k hargsnn
  constructor
  · intro hname hnull
    have gm := getProp_of_nullish
      (propOrUndef (propOrUndef (propOrUndef request "tool") "args") "message")
      "length" hnull
    simp [processStdinRequest, h, hreq, htool, hargs, hname, dispatchTool,
      sendMessageToAgentForce, g1, gm]
  · intro hname hnull
    have gc := getProp_of_nullish
      (propOrUndef (propOrUndef (propOrUndef request "tool") "args") "config")
      "agentId" hnull
    simp [processStdinRequest, h, hreq, htool, hargs, hname, dispatchTool,
      authenticateWithAgentForce, g1, gc]

/-- C9 witness: a send_message envelope whose args lack `message`
yields a `processing_error` envelope, exit 1 and no outbound call. -/
theorem prediag_fault_processing_error_witness :
    processStdinRequest ⟨"http://localhost:3000", "k", "c1"⟩ "r1"
        "\x7b\"tool\":\x7b\"name\":\"agentforce_send_message\",\"args\":\x7b\"clientId\":\"c1\"\x7d\x7d\x7d"
        (.ok (.obj [("tool", .obj [("name", .str "agentforce_send_message"),
          ("args", .obj [("clientId", .str "c1")])])]))
        (.ok .null) =
      ⟨[writeJson (errorEnvelope
          ("Error: " ++ cannotRead "undefined" "length")
          "processing_error" (cannotRead "undefined" "length"))], 1, []⟩ :=
  (prediag_fault_processing_error ⟨"http://localhost:3000", "k", "c1"⟩ "r1"
    "\x7b\"tool\":\x7b\"name\":\"agentforce_send_message\",\"args\":\x7b\"clientId\":\"c1\"\x7d\x7d\x7d"
    (.ok .null)
    (.obj [("tool", .obj [("name", .str "agentforce_send_message"),
      ("args", .obj [("clientId", .str "c1")])])])
    (by decide) rfl rfl rfl).1 rfl rfl
